import Mathlib

/-!
Verification of the RNLI launches sensor (custom_components/RNLI/sensor.py):
a shallow embedding of the record filtering and sorting, the coordinator's
error handling, and the sensor's state / attribute rendering, together with
theorems settling the specified properties.
-/

set_option maxHeartbeats 1000000

namespace RNLI

/-- JSON values as the endpoint delivers them and as the Python code stores
them in launch dictionaries: `null` is Python `None`, the other constructors
are the scalar shapes the claims exercise. -/
inductive JVal where
  | null
  | str (s : String)
  | num (n : Int)
  | jbool (b : Bool)
deriving DecidableEq

/-- One launch record: a JSON object, i.e. a Python dict, modelled as an
association list in insertion order (Python dicts preserve it).  A dict has
no repeated keys; theorems that need this assume `Nodup` on the keys. -/
abbrev Record := List (String × JVal)

/-- First binding of a key, the lookup of a dict whose keys are unique. -/
def Record.get? : Record → String → Option JVal
  | [], _ => none
  | (k2, v) :: rest, k => if k2 = k then some v else Record.get? rest k

/-- Python `d.get(k)`: `None` when the key is missing. -/
def pyGet (r : Record) (k : String) : JVal :=
  (Record.get? r k).getD JVal.null

/-- Python `d.get(k, dflt)`: the default only when the key is missing
(a key bound to `None` still yields `None`, not the default). -/
def pyGetD (r : Record) (k : String) (dflt : JVal) : JVal :=
  (Record.get? r k).getD dflt

/-- sensor.py line 83: `launch.get("shortName") == self.station_short_name`.
Python equality of a possibly missing JSON value against a string: only a
string value can compare equal; `None` (missing key or JSON null), numbers
and booleans are never equal to a string. -/
def matchesStation (r : Record) (s : String) : Bool :=
  match Record.get? r "shortName" with
  | some (JVal.str t) => t = s
  | _ => false

/-- sensor.py line 88: the sort key `x.get("launchDate", "")`. -/
def launchKey (r : Record) : JVal :=
  pyGetD r "launchDate" (JVal.str "")

/-- The sort key as the string Python compares.  Python raises `TypeError`
when a non-string key meets a string in a comparison, so the sort is only
modelled on inputs whose keys are all strings (`launchKeyIsStr`); the
catch-all branch below is never reached under that hypothesis. -/
def launchKeyStr (r : Record) : String :=
  match launchKey r with
  | JVal.str s => s
  | _ => ""

/-- The record's sort key is a string, so Python's comparison is defined on
it: `launchDate` is either missing (defaulted to `""`) or bound to a string. -/
def launchKeyIsStr (r : Record) : Bool :=
  match launchKey r with
  | JVal.str _ => true
  | _ => false

/-- Lexicographic comparison of strings as lists of code points, `≤`.  This
is Python's total order on strings, under which `reverse=True` sorting is
stated. -/
def strLeb : List Char → List Char → Bool
  | [], _ => true
  | _ :: _, [] => false
  | a :: as, b :: bs =>
    if a.toNat < b.toNat then true
    else if b.toNat < a.toNat then false
    else strLeb as bs

/-- Python string `≤`. -/
def pyStrLe (a b : String) : Bool :=
  strLeb a.data b.data

/-- The order `list.sort(key=..., reverse=True)` establishes: `a` may sit
before `b` when `b`'s key is at most `a`'s (lexicographic string order,
code point by code point, as in Python). -/
def laterFirst (a b : Record) : Prop :=
  pyStrLe (launchKeyStr b) (launchKeyStr a) = true

instance : DecidableRel laterFirst :=
  fun _ _ => inferInstanceAs (Decidable (_ = true))

/-- sensor.py line 88: `station_launches.sort(key=lambda x: x.get("launchDate", ""), reverse=True)`.
Python's sort is stable; a stable sort by a total preorder is extensionally
unique, so insertion sort with `laterFirst` is the same function. -/
def sortLaunches (l : List Record) : List Record :=
  List.insertionSort laterFirst l

/-- sensor.py lines 81-88: the list comprehension filtering on
`shortName` followed by the stable descending sort on `launchDate`. -/
def select (records : List Record) (s : String) : List Record :=
  sortLaunches (records.filter (fun r => matchesStation r s))

/-- The predicate "this record's sort key is the string k". -/
def hasKey (k : String) (r : Record) : Bool :=
  decide (launchKeyStr r = k)

/-- Python exceptions the embedding distinguishes. -/
inductive PyExc where
  | typeError
  | valueError
deriving DecidableEq

/-- Result of evaluating a Python expression: a value, or a raised exception
that escapes the expression. -/
inductive PyResult (α : Type) where
  | ok (a : α)
  | raised (e : PyExc)
deriving DecidableEq

/-- Offset part of a canonical ISO-8601 timestamp: nothing, or `±HH:MM`. -/
def isOffsetTail : List Char → Bool
  | [] => true
  | [sg, h1, h2, c, m1, m2] =>
    (sg = '+' || sg = '-') && h1.isDigit && h2.isDigit && c = ':' && m1.isDigit && m2.isDigit
  | _ => false

/-- Character shape `YYYY-MM-DDTHH:MM:SS` followed by an offset tail. -/
def isIsoShape : List Char → Bool
  | y1 :: y2 :: y3 :: y4 :: d1 :: mo1 :: mo2 :: d2 :: da1 :: da2 :: t ::
      hh1 :: hh2 :: c1 :: mi1 :: mi2 :: c2 :: ss1 :: ss2 :: rest =>
    y1.isDigit && y2.isDigit && y3.isDigit && y4.isDigit && d1 = '-' &&
    mo1.isDigit && mo2.isDigit && d2 = '-' && da1.isDigit && da2.isDigit &&
    t = 'T' && hh1.isDigit && hh2.isDigit && c1 = ':' && mi1.isDigit && mi2.isDigit &&
    c2 = ':' && ss1.isDigit && ss2.isDigit && isOffsetTail rest
  | _ => false

/-- Modelled from the Python standard library (an external collaborator, not
repository code): `datetime.fromisoformat(s).isoformat()` is the identity on
the canonical `YYYY-MM-DDTHH:MM:SS[±HH:MM]` strings the endpoint serves, and
`fromisoformat` raises `ValueError` (here `none`) on strings of any other
shape.  Calendar range validation is elided: no claim turns on it. -/
def fromisoThenIso (s : String) : Option String :=
  if isIsoShape s.data then some s else none

/-- sensor.py lines 120-133, the `state` property.  `self.coordinator.data`
is `None` before a first success and a list after one; the guard
`if self.coordinator.data and len(self.coordinator.data) > 0` sends both
`None` and `[]` to `return "unknown"`.  Otherwise the code runs
`datetime.fromisoformat(latest_launch.get("launchDate")).isoformat()` under
`except ValueError`: an unparseable string raises `ValueError`, caught, and
returns "unknown"; but a missing `launchDate` makes `.get` return `None`,
and `datetime.fromisoformat(None)` raises `TypeError`, which the
`except ValueError` clause does not catch, so it escapes the property. -/
def sensorState (data : Option (List Record)) : PyResult String :=
  match data with
  | some (latest :: _) =>
    match pyGet latest "launchDate" with
    | JVal.str s =>
      match fromisoThenIso s with
      | some iso => PyResult.ok iso
      | none => PyResult.ok "unknown"
    | _ => PyResult.raised PyExc.typeError
  | _ => PyResult.ok "unknown"

/-- Python dict assignment `d[k] = v`: overwrite in place when the key is
present, append otherwise. -/
def dictSet : List (String × JVal) → String → JVal → List (String × JVal)
  | [], k, v => [(k, v)]
  | p :: rest, k, v => if p.1 = k then (k, v) :: rest else p :: dictSet rest k v

/-- sensor.py line 27. -/
def ATTRIBUTION : String := "Data provided by RNLI Web API"

/-- sensor.py line 150: the record fields excluded from the verbatim
pass-through loop because they are already surfaced under a fixed name
(four as attributes, `shortName` as `station_monitored`, `launchDate` as the
state value). -/
def fixedFieldKeys : List String :=
  ["id", "lifeboat_IdNo", "title", "website", "shortName", "launchDate"]

/-- One iteration of the pass-through loop (sensor.py lines 149-151):
`if key not in [...]: attributes[key] = value`. -/
def passStep (d : List (String × JVal)) (kv : String × JVal) : List (String × JVal) :=
  if kv.1 ∈ fixedFieldKeys then d else dictSet d kv.1 kv.2

/-- The attribute names `extra_state_attributes` writes before the
pass-through loop runs.  A record field with one of these names collides
with a fixed entry and overwrites it. -/
def fixedAttrKeys : List String :=
  ["attribution", "station_monitored", "launch_id", "lifeboat_id",
   "station_title", "station_website"]

/-- sensor.py lines 135-154, `extra_state_attributes`: the attribution and
monitored-station entries, then for a non-empty list the four fixed
per-launch entries via `.get` (so `None` when the field is missing) and the
pass-through loop `for key, value in latest_launch.items()`, which assigns
`attributes[key] = value` for every key not in `fixedFieldKeys`; for `None`
or an empty list, the "no recent launches" note instead. -/
def extraStateAttributes (station : String) (data : Option (List Record)) :
    List (String × JVal) :=
  let base := dictSet (dictSet [] "attribution" (JVal.str ATTRIBUTION))
    "station_monitored" (JVal.str station)
  match data with
  | some (latest :: _) =>
    let a1 := dictSet base "launch_id" (pyGet latest "id")
    let a2 := dictSet a1 "lifeboat_id" (pyGet latest "lifeboat_IdNo")
    let a3 := dictSet a2 "station_title" (pyGet latest "title")
    let a4 := dictSet a3 "station_website" (pyGet latest "website")
    latest.foldl passStep a4
  | _ => dictSet base "last_launch_info"
      (JVal.str "No recent launches found for this station.")

/-- What the environment does to one fetch attempt of
`_async_update_data` (sensor.py lines 71-95). -/
inductive FetchOutcome where
  | timeout
  | transportError
  | httpStatus (code : Nat)
  | badJson
  | notArray
  | ok (body : List Record)
deriving DecidableEq

/-- The two `UpdateFailed` messages `_async_update_data` can raise: the
`except aiohttp.ClientError` branch ("Error fetching data from RNLI API:
...") and the `except Exception` branch ("Unknown error parsing RNLI API
data: ..."). -/
inductive UpdateFailedKind where
  | fetchClientError
  | unknownParsing
deriving DecidableEq

/-- sensor.py lines 71-95, `_async_update_data`, as a function of the fetch
outcome.  Exception routing of the two except clauses: connection/DNS/TLS
failures and `raise_for_status`'s `ClientResponseError` are
`aiohttp.ClientError`s and take the first branch; `asyncio.TimeoutError`
(raised by `async_timeout.timeout(10)`) is NOT an `aiohttp.ClientError`, so
it falls through to `except Exception`, as do JSON decoding errors and the
`AttributeError`/`TypeError` from iterating a non-array body.  On success
the body is filtered and sorted by `select`. -/
def asyncUpdateData (o : FetchOutcome) (station : String) :
    Except UpdateFailedKind (List Record) :=
  match o with
  | FetchOutcome.timeout => Except.error UpdateFailedKind.unknownParsing
  | FetchOutcome.transportError => Except.error UpdateFailedKind.fetchClientError
  | FetchOutcome.httpStatus _ => Except.error UpdateFailedKind.fetchClientError
  | FetchOutcome.badJson => Except.error UpdateFailedKind.unknownParsing
  | FetchOutcome.notArray => Except.error UpdateFailedKind.unknownParsing
  | FetchOutcome.ok body => Except.ok (select body station)

/-- Modelled from the spec: the cache entry owned by one coordinator.  The
host's `DataUpdateCoordinator` (an external collaborator, not repository
code) keeps `data` and the last failure; spec section 3 names them `data`
and `lastError`. -/
structure CoordState where
  data : Option (List Record)
  lastError : Option UpdateFailedKind
deriving DecidableEq

/-- The coordinator's initial state: no data, no error. -/
def initCoord : CoordState :=
  { data := none, lastError := none }

/-- Modelled from the spec: one settled refresh attempt of the host
`DataUpdateCoordinator` (spec section 4.3).  The host awaits
`_async_update_data`; on success it replaces `data` wholesale and clears
the last error, on `UpdateFailed` it leaves `data` untouched and records
the error.  The result is a total function: the failure is absorbed into
the state, never raised to the caller of `refresh_now()`/`get_cached()`. -/
def refreshNow (st : CoordState) (o : FetchOutcome) (station : String) : CoordState :=
  match asyncUpdateData o station with
  | Except.ok newData => { data := some newData, lastError := none }
  | Except.error e => { st with lastError := some e }

/-- Modelled from the spec: the coordinator's `Idle`/`Refreshing` gate (spec
sections 4.3 and 5), instrumented with counters.  `waiters` is how many
`refresh_now()` callers await the in-flight attempt, `fetchesIssued` how
many Fetcher calls have been started, `resolved` how many callers have been
resolved. -/
structure SchedState where
  refreshing : Bool
  waiters : Nat
  fetchesIssued : Nat
  resolved : Nat
deriving DecidableEq

/-- Modelled from the spec: a `refresh_now()` arrival.  When a refresh is
already in flight the caller joins it (no new Fetcher call); otherwise the
gate moves to `Refreshing` and one Fetcher call is issued. -/
def callRefreshNow (st : SchedState) : SchedState :=
  if st.refreshing then { st with waiters := st.waiters + 1 }
  else { st with refreshing := true, waiters := st.waiters + 1,
                 fetchesIssued := st.fetchesIssued + 1 }

/-- Modelled from the spec: the in-flight attempt completes; every waiting
caller resolves and the gate returns to `Idle`. -/
def completeInFlight (st : SchedState) : SchedState :=
  { st with refreshing := false, waiters := 0, resolved := st.resolved + st.waiters }

/-- Concrete record list instantiating the filter/sort theorem. -/
def C1wRecords : List Record :=
  [[("shortName", JVal.str "ABC"), ("launchDate", JVal.str "2024-01-01T10:00:00+00:00")],
   [("shortName", JVal.str "XYZ"), ("launchDate", JVal.str "2024-03-01T00:00:00+00:00")],
   [("shortName", JVal.str "ABC"), ("launchDate", JVal.str "2024-02-01T09:00:00+00:00")]]

/-- First record of the end-to-end example of spec section 8.6 (January). -/
def C7r1 : Record :=
  [("shortName", JVal.str "ABC"), ("title", JVal.str "A Station"),
   ("launchDate", JVal.str "2024-01-01T10:00:00+00:00"), ("id", JVal.str "1")]

/-- Second record of the end-to-end example (February, the most recent). -/
def C7r2 : Record :=
  [("shortName", JVal.str "ABC"), ("title", JVal.str "A Station"),
   ("launchDate", JVal.str "2024-02-01T09:00:00+00:00"), ("id", JVal.str "2")]

/-- Third record of the end-to-end example, another station. -/
def C7r3 : Record :=
  [("shortName", JVal.str "XYZ"), ("title", JVal.str "X Station"),
   ("launchDate", JVal.str "2024-03-05T12:00:00+00:00"), ("id", JVal.str "3")]

/-- A record with no shortName key at all. -/
def C9rec : Record :=
  [("id", JVal.str "1")]

/-- A record carrying an `attribution` field of its own: the endpoint may
serve arbitrary extra fields, and this one collides with the fixed
attribution entry. -/
def C6rec : Record :=
  [("shortName", JVal.str "ABC"), ("attribution", JVal.str "evil")]

/-- A collision-free record with one unknown extra field. -/
def C6w : Record :=
  [("shortName", JVal.str "ABC"), ("launchDate", JVal.str "2024-02-01T09:00:00+00:00"),
   ("id", JVal.str "2"), ("extraField", JVal.str "kept")]

/-- A record that lacks `id` but carries a `launch_id` field of its own. -/
def C10rec : Record :=
  [("shortName", JVal.str "ABC"), ("launch_id", JVal.str "collision")]

theorem strLeb_refl : ∀ l : List Char, strLeb l l = true := by
  intro l
  induction l with
  | nil => rfl
  | cons a as ih => simp [strLeb, ih]

theorem strLeb_total : ∀ a b : List Char, strLeb a b = true ∨ strLeb b a = true := by
  intro a
  induction a with
  | nil => intro b; left; rfl
  | cons x xs ih =>
    intro b
    cases b with
    | nil => right; rfl
    | cons y ys =>
      by_cases hxy : x.toNat < y.toNat
      · left; simp [strLeb, hxy]
      · by_cases hyx : y.toNat < x.toNat
        · right; simp [strLeb, hyx]
        · have := ih ys
          rcases this with h | h
          · left; simp [strLeb, hxy, hyx, h]
          · right; simp [strLeb, hxy, hyx, h]

theorem strLeb_trans :
    ∀ {a b c : List Char}, strLeb a b = true → strLeb b c = true → strLeb a c = true := by
  intro a
  induction a with
  | nil => intro b c _ _; rfl
  | cons x xs ih =>
    intro b c hab hbc
    cases b with
    | nil => simp [strLeb] at hab
    | cons y ys =>
      cases c with
      | nil => simp [strLeb] at hbc
      | cons z zs =>
        simp only [strLeb] at hab hbc ⊢
        by_cases hxy : x.toNat < y.toNat
        · by_cases hyz : y.toNat < z.toNat
          · have hxz : x.toNat < z.toNat := by omega
            simp [hxz]
          · by_cases hzy : z.toNat < y.toNat
            · simp [hyz, hzy] at hbc
            · have hxz : x.toNat < z.toNat := by omega
              simp [hxz]
        · by_cases hyx : y.toNat < x.toNat
          · simp [hxy, hyx] at hab
          · simp only [if_neg hxy, if_neg hyx] at hab
            by_cases hyz : y.toNat < z.toNat
            · have hxz : x.toNat < z.toNat := by omega
              simp [hxz]
            · by_cases hzy : z.toNat < y.toNat
              · simp [hyz, hzy] at hbc
              · simp only [if_neg hyz, if_neg hzy] at hbc
                have hxz : ¬ x.toNat < z.toNat := by omega
                have hzx : ¬ z.toNat < x.toNat := by omega
                simp only [if_neg hxz, if_neg hzx]
                exact ih hab hbc

instance : IsTotal Record laterFirst :=
  ⟨fun a b => strLeb_total (launchKeyStr b).data (launchKeyStr a).data⟩

instance : IsTrans Record laterFirst :=
  ⟨fun _ _ _ hab hbc => strLeb_trans hbc hab⟩

theorem laterFirst_of_eq_key {a b : Record} (h : launchKeyStr a = launchKeyStr b) :
    laterFirst a b := by
  show pyStrLe (launchKeyStr b) (launchKeyStr a) = true
  rw [h]
  exact strLeb_refl _

theorem filter_orderedInsert_pos (k : String) (a : Record) (l : List Record)
    (ha : hasKey k a = true) :
    (l.orderedInsert laterFirst a).filter (hasKey k) = a :: l.filter (hasKey k) := by
  rw [List.orderedInsert_eq_take_drop, List.filter_append]
  have htake : (l.takeWhile fun b => ¬ laterFirst a b).filter (hasKey k) = [] := by
    rw [List.filter_eq_nil_iff]
    intro b hb
    have hnb : ¬ laterFirst a b := by
      have := List.mem_takeWhile_imp hb
      simpa using this
    simp only [hasKey, decide_eq_true_eq] at ha ⊢
    intro hkey
    exact hnb (laterFirst_of_eq_key (by rw [ha, hkey]))
  rw [htake, List.filter_cons_of_pos ha, List.nil_append]
  have hdrop : (l.dropWhile fun b => ¬ laterFirst a b).filter (hasKey k)
      = l.filter (hasKey k) := by
    conv_rhs =>
      rw [← List.takeWhile_append_dropWhile (p := fun b => decide ¬ laterFirst a b) (l := l)]
    rw [List.filter_append, htake, List.nil_append]
  rw [hdrop]

theorem filter_orderedInsert_neg (k : String) (a : Record) (l : List Record)
    (ha : hasKey k a = false) :
    (l.orderedInsert laterFirst a).filter (hasKey k) = l.filter (hasKey k) := by
  rw [List.orderedInsert_eq_take_drop, List.filter_append,
    List.filter_cons_of_neg (by simp [ha]), ← List.filter_append,
    List.takeWhile_append_dropWhile]

theorem filter_insertionSort_key (k : String) (l : List Record) :
    (List.insertionSort laterFirst l).filter (hasKey k) = l.filter (hasKey k) := by
  induction l with
  | nil => rfl
  | cons a l ih =>
    show ((List.insertionSort laterFirst l).orderedInsert laterFirst a).filter (hasKey k)
        = (a :: l).filter (hasKey k)
    by_cases ha : hasKey k a = true
    · rw [filter_orderedInsert_pos k a _ ha, ih, List.filter_cons_of_pos ha]
    · have ha' : hasKey k a = false := by simpa using ha
      rw [filter_orderedInsert_neg k a _ ha', ih, List.filter_cons_of_neg (by simp [ha'])]

theorem get?_dictSet_self (d : List (String × JVal)) (k : String) (v : JVal) :
    Record.get? (dictSet d k v) k = some v := by
  induction d with
  | nil => simp [dictSet, Record.get?]
  | cons p rest ih =>
    by_cases h : p.1 = k
    · simp [dictSet, h, Record.get?]
    · simp [dictSet, h, Record.get?, ih]

theorem get?_dictSet_ne (d : List (String × JVal)) (k k2 : String) (v : JVal)
    (h : k2 ≠ k) : Record.get? (dictSet d k v) k2 = Record.get? d k2 := by
  have h2 : ¬ (k = k2) := fun he => h he.symm
  induction d with
  | nil => simp [dictSet, Record.get?, h2]
  | cons p rest ih =>
    by_cases hp : p.1 = k
    · have hp2 : ¬ (p.1 = k2) := by rw [hp]; exact h2
      simp [dictSet, hp, Record.get?, h2, hp2]
    · by_cases hp2 : p.1 = k2
      · simp [dictSet, hp, Record.get?, hp2, h]
      · simp [dictSet, hp, Record.get?, hp2, ih]

theorem isSome_get?_dictSet (d : List (String × JVal)) (k k2 : String) (v : JVal)
    (h : (Record.get? d k2).isSome = true) :
    (Record.get? (dictSet d k v) k2).isSome = true := by
  by_cases hk : k2 = k
  · subst hk
    rw [get?_dictSet_self]
    rfl
  · rw [get?_dictSet_ne d k k2 v hk]
    exact h

theorem get?_passFold_untouched (r : List (String × JVal)) (k : String)
    (h : ∀ kv ∈ r, kv.1 = k → kv.1 ∈ fixedFieldKeys) :
    ∀ d : List (String × JVal), Record.get? (r.foldl passStep d) k = Record.get? d k := by
  induction r with
  | nil => intro d; rfl
  | cons p rest ih =>
    intro d
    show Record.get? (rest.foldl passStep (passStep d p)) k = Record.get? d k
    rw [ih (fun kv hkv => h kv (List.mem_cons_of_mem p hkv))]
    unfold passStep
    by_cases hfix : p.1 ∈ fixedFieldKeys
    · rw [if_pos hfix]
    · rw [if_neg hfix]
      have hne : k ≠ p.1 := by
        intro he
        exact hfix (h p (List.mem_cons_self p rest) he.symm)
      exact get?_dictSet_ne d p.1 k p.2 hne

theorem get?_passFold_pass (r : List (String × JVal)) (kv : String × JVal)
    (hnod : (r.map Prod.fst).Nodup) (hmem : kv ∈ r) (hfix : kv.1 ∉ fixedFieldKeys) :
    ∀ d : List (String × JVal), Record.get? (r.foldl passStep d) kv.1 = some kv.2 := by
  induction r with
  | nil => cases hmem
  | cons p rest ih =>
    intro d
    show Record.get? (rest.foldl passStep (passStep d p)) kv.1 = some kv.2
    rcases List.mem_cons.mp hmem with he | hrest
    · subst he
      have hnotin : ∀ q ∈ rest, q.1 = kv.1 → q.1 ∈ fixedFieldKeys := by
        intro q hq heq
        have : kv.1 ∉ rest.map Prod.fst := (List.nodup_cons.mp hnod).1
        exact absurd (heq ▸ List.mem_map_of_mem Prod.fst hq) this
      rw [get?_passFold_untouched rest kv.1 hnotin]
      unfold passStep
      rw [if_neg hfix]
      exact get?_dictSet_self d kv.1 kv.2
    · exact ih (List.nodup_cons.mp hnod).2 hrest (passStep d p)

theorem isSome_get?_passFold (r : List (String × JVal)) (k : String) :
    ∀ d : List (String × JVal), (Record.get? d k).isSome = true →
      (Record.get? (r.foldl passStep d) k).isSome = true := by
  induction r with
  | nil => intro d h; exact h
  | cons p rest ih =>
    intro d h
    show (Record.get? (rest.foldl passStep (passStep d p)) k).isSome = true
    apply ih
    unfold passStep
    by_cases hfix : p.1 ∈ fixedFieldKeys
    · rw [if_pos hfix]; exact h
    · rw [if_neg hfix]
      exact isSome_get?_dictSet d p.1 k p.2 h

/-- Claim C1: for every list of launch records whose launchDate values, when
present, are strings (Python's comparison is only defined then), and every
station short name s, the filter/sort step returns exactly the records whose
shortName equals s — a permutation of the filtered input — ordered by
launchDate descending with a missing launchDate treated as the empty string
for comparison, and stably: for every sort-key value, the records carrying
that key keep their input order. -/
theorem C1_select_filters_and_sorts (records : List Record) (s : String)
    (hstr : ∀ r ∈ records, launchKeyIsStr r = true) :
    List.Perm (select records s) (records.filter (fun r => matchesStation r s)) ∧
    List.Pairwise laterFirst (select records s) ∧
    ∀ k : String, (select records s).filter (hasKey k)
      = (records.filter (fun r => matchesStation r s)).filter (hasKey k) :=
  ⟨List.perm_insertionSort laterFirst _,
   List.sorted_insertionSort laterFirst _,
   fun k => filter_insertionSort_key k _⟩

/-- Witness for C1 at a concrete record list: the hypothesis holds and the
selection is the matching records in descending launchDate order. -/
theorem C1_select_filters_and_sorts_witness :
    List.Perm (select C1wRecords "ABC")
      (C1wRecords.filter (fun r => matchesStation r "ABC")) ∧
    List.Pairwise laterFirst (select C1wRecords "ABC") :=
  ⟨(C1_select_filters_and_sorts C1wRecords "ABC" (by decide)).1,
   (C1_select_filters_and_sorts C1wRecords "ABC" (by decide)).2.1⟩

/-- Claim C2 (code bug): the render is not exception-free.  On a cache entry
whose first record lacks `launchDate`, `latest_launch.get("launchDate")` is
`None` and `datetime.fromisoformat(None)` raises `TypeError`, which the
`except ValueError` clause does not catch — the state property raises
instead of degrading to "unknown".  An unparseable string, by contrast, is
caught and does degrade. -/
theorem C2_missing_launchDate_raises :
    sensorState (some [[("id", JVal.str "1")]]) = PyResult.raised PyExc.typeError ∧
    sensorState (some [[("launchDate", JVal.str "not-a-date")]]) = PyResult.ok "unknown" := by
  decide

/-- Claim C3 counterexample: the code does not fail with four distinguishable
error kinds.  A timed-out attempt and a malformed-JSON attempt raise the
same error (both fall to the generic `except Exception` branch), and a
transport failure and a non-2xx status raise the same error (both are
`aiohttp.ClientError`s). -/
theorem C3_counterexample :
    asyncUpdateData FetchOutcome.timeout "ABC" = asyncUpdateData FetchOutcome.badJson "ABC" ∧
    asyncUpdateData FetchOutcome.transportError "ABC"
      = asyncUpdateData (FetchOutcome.httpStatus 500) "ABC" :=
  ⟨rfl, rfl⟩

/-- Claim C3 amended: a single fetch attempt fails with a single exception
type (`UpdateFailed`) in one of exactly two distinguishable message kinds:
the aiohttp client-error kind for transport failures and non-2xx statuses,
and the generic parsing kind for timeouts, malformed JSON and non-array
bodies.  Timeout and Parse are thus distinct from Transport, but not from
each other, and HttpStatus is not distinct from Transport. -/
theorem C3_two_error_kinds (s : String) (code : Nat) :
    asyncUpdateData FetchOutcome.timeout s
      = Except.error UpdateFailedKind.unknownParsing ∧
    asyncUpdateData FetchOutcome.transportError s
      = Except.error UpdateFailedKind.fetchClientError ∧
    asyncUpdateData (FetchOutcome.httpStatus code) s
      = Except.error UpdateFailedKind.fetchClientError ∧
    asyncUpdateData FetchOutcome.badJson s
      = Except.error UpdateFailedKind.unknownParsing ∧
    asyncUpdateData FetchOutcome.notArray s
      = Except.error UpdateFailedKind.unknownParsing ∧
    UpdateFailedKind.unknownParsing ≠ UpdateFailedKind.fetchClientError :=
  ⟨rfl, rfl, rfl, rfl, rfl, by decide⟩

/-- Claim C4: a failed refresh leaves the cached data exactly as it was and
sets lastError; a subsequent successful refresh clears lastError and
replaces the data wholesale with the new result.  `refreshNow` is a total
function into `CoordState`: the failure is absorbed, never raised to the
caller. -/
theorem C4_failure_keeps_data_success_replaces
    (st : CoordState) (s : String) (oFail oGood : FetchOutcome)
    (hf : ∃ e, asyncUpdateData oFail s = Except.error e) :
    (refreshNow st oFail s).data = st.data ∧
    (refreshNow st oFail s).lastError.isSome = true ∧
    ∀ d, asyncUpdateData oGood s = Except.ok d →
      (refreshNow (refreshNow st oFail s) oGood s).lastError = none ∧
      (refreshNow (refreshNow st oFail s) oGood s).data = some d := by
  obtain ⟨e, he⟩ := hf
  refine ⟨?_, ?_, ?_⟩
  · unfold refreshNow
    rw [he]
  · unfold refreshNow
    rw [he]
    rfl
  · intro d hd
    constructor
    · unfold refreshNow
      rw [hd]
    · unfold refreshNow
      rw [hd]

/-- Witness for C4: a timed-out refresh from the initial state keeps the
(empty) data and records an error. -/
theorem C4_witness :
    (refreshNow initCoord FetchOutcome.timeout "ABC").data = initCoord.data ∧
    (refreshNow initCoord FetchOutcome.timeout "ABC").lastError.isSome = true :=
  ⟨(C4_failure_keeps_data_success_replaces initCoord "ABC" FetchOutcome.timeout
      (FetchOutcome.ok []) ⟨UpdateFailedKind.unknownParsing, rfl⟩).1,
   (C4_failure_keeps_data_success_replaces initCoord "ABC" FetchOutcome.timeout
      (FetchOutcome.ok []) ⟨UpdateFailedKind.unknownParsing, rfl⟩).2.1⟩

/-- Claim C5: rendering a cache entry with empty data yields the state
"unknown" and an attribute map holding exactly the attribution string, the
monitored station and the "no recent launches" note — in particular none of
the per-launch keys. -/
theorem C5_empty_data_renders_note (s : String) :
    sensorState (some []) = PyResult.ok "unknown" ∧
    extraStateAttributes s (some []) =
      [("attribution", JVal.str ATTRIBUTION),
       ("station_monitored", JVal.str s),
       ("last_launch_info", JVal.str "No recent launches found for this station.")] ∧
    Record.get? (extraStateAttributes s (some [])) "launch_id" = none ∧
    Record.get? (extraStateAttributes s (some [])) "lifeboat_id" = none ∧
    Record.get? (extraStateAttributes s (some [])) "station_title" = none ∧
    Record.get? (extraStateAttributes s (some [])) "station_website" = none :=
  ⟨rfl, rfl, rfl, rfl, rfl, rfl⟩

/-- Claim C7: the end-to-end example.  From the three-record endpoint
response with configured station "ABC", one successful refresh caches
exactly [February record, January record], the state is the February
instant, and the attributes include launch_id = "2". -/
theorem C7_end_to_end :
    (refreshNow initCoord (FetchOutcome.ok [C7r1, C7r2, C7r3]) "ABC").data
      = some [C7r2, C7r1] ∧
    (refreshNow initCoord (FetchOutcome.ok [C7r1, C7r2, C7r3]) "ABC").lastError = none ∧
    sensorState (refreshNow initCoord (FetchOutcome.ok [C7r1, C7r2, C7r3]) "ABC").data
      = PyResult.ok "2024-02-01T09:00:00+00:00" ∧
    Record.get? (extraStateAttributes "ABC"
        (refreshNow initCoord (FetchOutcome.ok [C7r1, C7r2, C7r3]) "ABC").data)
        "launch_id"
      = some (JVal.str "2") := by
  decide

/-- Claim C8: two `refresh_now()` calls arriving around the Idle/Refreshing
gate issue at most one new Fetcher call between them, and when the single
in-flight attempt completes, both callers (along with any earlier waiters)
are resolved. -/
theorem C8_at_most_one_in_flight (st : SchedState) :
    (callRefreshNow (callRefreshNow st)).fetchesIssued ≤ st.fetchesIssued + 1 ∧
    (completeInFlight (callRefreshNow (callRefreshNow st))).resolved
      = st.resolved + st.waiters + 2 ∧
    (completeInFlight (callRefreshNow (callRefreshNow st))).waiters = 0 := by
  unfold callRefreshNow completeInFlight
  by_cases h : st.refreshing <;> simp [h] <;> omega

/-- Claim C9: a record with no shortName key at all is never selected:
`launch.get("shortName")` returns `None`, and `None == s` is false for
every station string. -/
theorem C9_missing_shortName_never_selected
    (records : List Record) (s : String) (r : Record)
    (hs : s ≠ "") (hmiss : Record.get? r "shortName" = none) :
    r ∉ select records s := by
  intro hmem
  have hmem2 : r ∈ records.filter (fun r => matchesStation r s) :=
    (List.perm_insertionSort laterFirst
      (records.filter (fun r => matchesStation r s))).subset hmem
  have hmatch : matchesStation r s = true := (List.mem_filter.mp hmem2).2
  unfold matchesStation at hmatch
  rw [hmiss] at hmatch
  simp at hmatch

/-- Witness for C9: the concrete record without a shortName key is not in
the selection computed from a list containing it. -/
theorem C9_witness :
    Record.get? C9rec "shortName" = none ∧ C9rec ∉ select [C9rec] "ABC" :=
  ⟨rfl, C9_missing_shortName_never_selected [C9rec] "ABC" C9rec (by decide) rfl⟩

/-- Claim C6 counterexample: the rendered attribute map does not always
include the attribution string.  The endpoint may serve a record with an
`attribution` field of its own; the verbatim pass-through loop then
overwrites the fixed attribution entry. -/
theorem C6_counterexample :
    Record.get? (extraStateAttributes "ABC" (some [C6rec])) "attribution"
      = some (JVal.str "evil") ∧
    JVal.str "evil" ≠ JVal.str ATTRIBUTION := by
  decide

/-- Claim C6 amended: for a cache entry with non-empty data whose first
record has no field named after a fixed attribute entry (attribution,
station_monitored, launch_id, lifeboat_id, station_title, station_website —
a colliding field would overwrite that entry), the rendered map includes
the attribution string, the monitored station, the first record's id,
lifeboat id, title and website under the four fixed names (via `.get`), and
every other field of the first record outside the six source keys already
surfaced under a fixed name, verbatim. -/
theorem C6_amended (s : String) (latest : Record) (rest : List Record)
    (hnod : (latest.map Prod.fst).Nodup)
    (hcol : ∀ kv ∈ latest, kv.1 ∉ fixedAttrKeys) :
    Record.get? (extraStateAttributes s (some (latest :: rest))) "attribution"
      = some (JVal.str ATTRIBUTION) ∧
    Record.get? (extraStateAttributes s (some (latest :: rest))) "station_monitored"
      = some (JVal.str s) ∧
    Record.get? (extraStateAttributes s (some (latest :: rest))) "launch_id"
      = some (pyGet latest "id") ∧
    Record.get? (extraStateAttributes s (some (latest :: rest))) "lifeboat_id"
      = some (pyGet latest "lifeboat_IdNo") ∧
    Record.get? (extraStateAttributes s (some (latest :: rest))) "station_title"
      = some (pyGet latest "title") ∧
    Record.get? (extraStateAttributes s (some (latest :: rest))) "station_website"
      = some (pyGet latest "website") ∧
    ∀ kv ∈ latest, kv.1 ∉ fixedFieldKeys →
      Record.get? (extraStateAttributes s (some (latest :: rest))) kv.1 = some kv.2 := by
  have hskip : ∀ k : String, k ∈ fixedAttrKeys →
      ∀ kv ∈ latest, kv.1 = k → kv.1 ∈ fixedFieldKeys := by
    intro k hk kv hkv heq
    exact absurd (by rw [heq]; exact hk) (hcol kv hkv)
  have hA : extraStateAttributes s (some (latest :: rest))
      = latest.foldl passStep
          (dictSet (dictSet (dictSet (dictSet (dictSet (dictSet []
            "attribution" (JVal.str ATTRIBUTION))
            "station_monitored" (JVal.str s))
            "launch_id" (pyGet latest "id"))
            "lifeboat_id" (pyGet latest "lifeboat_IdNo"))
            "station_title" (pyGet latest "title"))
            "station_website" (pyGet latest "website")) := rfl
  refine ⟨?_, ?_, ?_, ?_, ?_, ?_, ?_⟩
  · rw [hA, get?_passFold_untouched latest "attribution" (hskip _ (by decide))]
    rfl
  · rw [hA, get?_passFold_untouched latest "station_monitored" (hskip _ (by decide))]
    rfl
  · rw [hA, get?_passFold_untouched latest "launch_id" (hskip _ (by decide))]
    rfl
  · rw [hA, get?_passFold_untouched latest "lifeboat_id" (hskip _ (by decide))]
    rfl
  · rw [hA, get?_passFold_untouched latest "station_title" (hskip _ (by decide))]
    rfl
  · rw [hA, get?_passFold_untouched latest "station_website" (hskip _ (by decide))]
    rfl
  · intro kv hkv hfix
    rw [hA]
    exact get?_passFold_pass latest kv hnod hkv hfix _

/-- Witness for C6 at a collision-free record: the fixed entries carry the
expected values and the unknown extra field passes through verbatim. -/
theorem C6_amended_witness :
    Record.get? (extraStateAttributes "ABC" (some [C6w])) "attribution"
      = some (JVal.str ATTRIBUTION) ∧
    Record.get? (extraStateAttributes "ABC" (some [C6w])) "launch_id"
      = some (pyGet C6w "id") ∧
    Record.get? (extraStateAttributes "ABC" (some [C6w])) "extraField"
      = some (JVal.str "kept") :=
  ⟨(C6_amended "ABC" C6w [] (by decide) (by decide)).1,
   (C6_amended "ABC" C6w [] (by decide) (by decide)).2.2.1,
   (C6_amended "ABC" C6w [] (by decide) (by decide)).2.2.2.2.2.2
     ("extraField", JVal.str "kept") (by decide) (by decide)⟩

/-- Claim C10 counterexample: the value under launch_id is not null when the
first record lacks `id` but carries a `launch_id` field of its own — the
pass-through loop overwrites the fixed entry with the record's value. -/
theorem C10_counterexample :
    Record.get? C10rec "id" = none ∧
    Record.get? (extraStateAttributes "ABC" (some [C10rec])) "launch_id"
      = some (JVal.str "collision") ∧
    Record.get? (extraStateAttributes "ABC" (some [C10rec])) "launch_id"
      ≠ some JVal.null := by
  decide

/-- Claim C10 amended: the four fixed per-launch keys are always present in
the rendered map — a colliding pass-through field can overwrite the value
but never removes the key — and when the first record's fields avoid the
fixed attribute names, each value is exactly the `.get` result, so `null`
(None), not an omitted key, whenever the corresponding JSON field is
missing. -/
theorem C10_fixed_keys_present (s : String) (latest : Record) (rest : List Record) :
    ((Record.get? (extraStateAttributes s (some (latest :: rest))) "launch_id").isSome
        = true ∧
     (Record.get? (extraStateAttributes s (some (latest :: rest))) "lifeboat_id").isSome
        = true ∧
     (Record.get? (extraStateAttributes s (some (latest :: rest))) "station_title").isSome
        = true ∧
     (Record.get? (extraStateAttributes s (some (latest :: rest))) "station_website").isSome
        = true) ∧
    ((∀ kv ∈ latest, kv.1 ∉ fixedAttrKeys) →
      Record.get? (extraStateAttributes s (some (latest :: rest))) "launch_id"
        = some (pyGet latest "id") ∧
      Record.get? (extraStateAttributes s (some (latest :: rest))) "lifeboat_id"
        = some (pyGet latest "lifeboat_IdNo") ∧
      Record.get? (extraStateAttributes s (some (latest :: rest))) "station_title"
        = some (pyGet latest "title") ∧
      Record.get? (extraStateAttributes s (some (latest :: rest))) "station_website"
        = some (pyGet latest "website")) := by
  have hA : extraStateAttributes s (some (latest :: rest))
      = latest.foldl passStep
          (dictSet (dictSet (dictSet (dictSet (dictSet (dictSet []
            "attribution" (JVal.str ATTRIBUTION))
            "station_monitored" (JVal.str s))
            "launch_id" (pyGet latest "id"))
            "lifeboat_id" (pyGet latest "lifeboat_IdNo"))
            "station_title" (pyGet latest "title"))
            "station_website" (pyGet latest "website")) := rfl
  constructor
  · refine ⟨?_, ?_, ?_, ?_⟩ <;>
      · rw [hA]
        exact isSome_get?_passFold latest _ _ rfl
  · intro hcol
    have hskip : ∀ k : String, k ∈ fixedAttrKeys →
        ∀ kv ∈ latest, kv.1 = k → kv.1 ∈ fixedFieldKeys := by
      intro k hk kv hkv heq
      exact absurd (by rw [heq]; exact hk) (hcol kv hkv)
    refine ⟨?_, ?_, ?_, ?_⟩
    · rw [hA, get?_passFold_untouched latest "launch_id" (hskip _ (by decide))]
      rfl
    · rw [hA, get?_passFold_untouched latest "lifeboat_id" (hskip _ (by decide))]
      rfl
    · rw [hA, get?_passFold_untouched latest "station_title" (hskip _ (by decide))]
      rfl
    · rw [hA, get?_passFold_untouched latest "station_website" (hskip _ (by decide))]
      rfl

end RNLI
